import Mathlib

/-!
Verification of the markitdown API server (src/app.py): a Flask app with a
liveness route `GET /` and a `POST /convert` handler `convert_files` that
materialises base64-encoded files into a per-request working directory,
converts each with the MarkItDown engine (optionally LLM-augmented), and
removes the working directory on every exit path.

The embedding models JSON values, the Python operations the handler uses
(`dict.get`, the `in` operator, subscripting, truthiness), the filesystem as
explicit state, and the external collaborators (base64 decoding, the
conversion engine) as function parameters in an environment record.
Ghost fields of the handler outcome (working directory, constructed engine,
conversion-call trace) record what the handler did without changing it.
-/

/-- JSON values, as Python represents a parsed request body. -/
inductive Json where
  | null
  | bool (b : Bool)
  | num (n : Int)
  | str (s : String)
  | arr (elems : List Json)
  | obj (fields : List (String × Json))

mutual

/-- Structural equality of JSON values (Python `==` on parsed JSON). -/
def Json.beq : Json → Json → Bool
  | .null, .null => true
  | .bool a, .bool b => a == b
  | .num a, .num b => a == b
  | .str a, .str b => a == b
  | .arr xs, .arr ys => beqJsonList xs ys
  | .obj xs, .obj ys => beqJsonFields xs ys
  | _, _ => false

/-- Elementwise equality of JSON lists. -/
def beqJsonList : List Json → List Json → Bool
  | [], [] => true
  | x :: xs, y :: ys => Json.beq x y && beqJsonList xs ys
  | _, _ => false

/-- Entrywise equality of JSON object field lists. -/
def beqJsonFields : List (String × Json) → List (String × Json) → Bool
  | [], [] => true
  | (k, v) :: xs, (l, w) :: ys => k == l && Json.beq v w && beqJsonFields xs ys
  | _, _ => false

end

instance : BEq Json := ⟨Json.beq⟩

/-- Python truthiness of a JSON value (`if llm_config`, `if not file_name`). -/
def Json.truthy : Json → Bool
  | .null => false
  | .bool b => b
  | .num n => n != 0
  | .str s => s != ""
  | .arr xs => !xs.isEmpty
  | .obj kvs => !kvs.isEmpty

/-- The Python type name of a value, as it appears in error messages. -/
def pyTypeName : Json → String
  | .null => "NoneType"
  | .bool _ => "bool"
  | .num _ => "int"
  | .str _ => "str"
  | .arr _ => "list"
  | .obj _ => "dict"

mutual

/-- Python `repr` of a JSON value. -/
def pyRepr : Json → String
  | .null => "None"
  | .bool true => "True"
  | .bool false => "False"
  | .num n => toString n
  | .str s => "\x27" ++ s ++ "\x27"
  | .arr xs => "[" ++ pyReprSeq xs ++ "]"
  | .obj kvs => "\x7b" ++ pyReprFields kvs ++ "\x7d"

/-- Python `repr` of the elements of a list, comma separated. -/
def pyReprSeq : List Json → String
  | [] => ""
  | [x] => pyRepr x
  | x :: y :: rest => pyRepr x ++ ", " ++ pyReprSeq (y :: rest)

/-- Python `repr` of the entries of a dict, comma separated. -/
def pyReprFields : List (String × Json) → String
  | [] => ""
  | [(k, v)] => "\x27" ++ k ++ "\x27: " ++ pyRepr v
  | (k, v) :: y :: rest =>
      "\x27" ++ k ++ "\x27: " ++ pyRepr v ++ ", " ++ pyReprFields (y :: rest)

end

/-- Python `str` of a JSON value (used by f-string interpolation). -/
def pyStr : Json → String
  | .str s => s
  | v => pyRepr v

/-- Python `value.get(key, default)`: on a dict, lookup with default; on any
other value an `AttributeError` is raised (modelled as `Except.error` carrying
the exception's string representation). -/
def pyGetD (v : Json) (k : String) (dflt : Json) : Except String Json :=
  match v with
  | .obj kvs => .ok (((kvs.lookup k).getD dflt))
  | v => .error ("\x27" ++ pyTypeName v ++ "\x27 object has no attribute \x27get\x27")

/-- Python `k in v` for a string `k`: key membership on a dict, element
membership on a list, substring test on a string, `TypeError` otherwise. -/
def pyContains (k : String) (v : Json) : Except String Bool :=
  match v with
  | .obj kvs => .ok (kvs.any (fun p => p.1 == k))
  | .arr xs => .ok (xs.any (fun x => x == Json.str k))
  | .str s => .ok (decide ((s.splitOn k).length > 1))
  | v => .error ("argument of type \x27" ++ pyTypeName v ++ "\x27 is not iterable")

/-- Python `v[k]` for a string key `k`: dict lookup (KeyError when absent),
`TypeError` on lists, strings and non-subscriptable values. -/
def pySubscript (v : Json) (k : String) : Except String Json :=
  match v with
  | .obj kvs =>
      match kvs.lookup k with
      | some x => .ok x
      | none => .error ("\x27" ++ k ++ "\x27")
  | .arr _ => .error "list indices must be integers or slices, not str"
  | .str _ => .error "string indices must be integers"
  | v => .error ("\x27" ++ pyTypeName v ++ "\x27 object is not subscriptable")

/-- Whether `s` starts with `pre` (over the character lists, so that proofs
and witnesses can evaluate it). -/
def strStartsWith (s pre : String) : Bool :=
  pre.data.isPrefixOf s.data

/-- Whether `s` ends with `suf`. -/
def strEndsWith (s suf : String) : Bool :=
  suf.data.isSuffixOf s.data

/-- `os.path.join` for two POSIX path components: an absolute second argument
discards the first; otherwise a separator is inserted unless the first part is
empty or already ends in a slash. -/
def pyJoin (a b : String) : String :=
  if strStartsWith b "/" then b
  else if a = "" || strEndsWith a "/" then a ++ b
  else a ++ "/" ++ b

/-- `os.path.dirname`, as posixpath computes it: everything up to and
including the final slash, with trailing slashes then stripped unless the
head consists only of slashes. -/
def dirname (p : String) : String :=
  let head := (p.data.reverse.dropWhile (fun c => c != '/')).reverse
  if !head.isEmpty && !head.all (fun c => c == '/') then
    ⟨(head.reverse.dropWhile (fun c => c == '/')).reverse⟩
  else ⟨head⟩

/-- Whether path `p` is the directory `dir` itself or lies beneath it. -/
def underDir (dir p : String) : Bool :=
  p == dir || strStartsWith p (dir ++ "/")

/-- The filesystem as the handler observes it: a set of directories and a map
from file paths to their byte contents. -/
structure FS where
  dirs : List String
  files : List (String × List Nat)


/-- Whether a path is one of the listed directories. -/
def dirListed (dirs : List String) (p : String) : Bool :=
  dirs.any (fun d => d == p)

/-- `os.path.exists`: the path is a known directory or file. -/
def FS.pathExists (fs : FS) (p : String) : Bool :=
  dirListed fs.dirs p || fs.files.any (fun q => q.1 == p)

/-- `os.makedirs(p, exist_ok=True)`: record the directory. -/
def FS.makedirs (fs : FS) (p : String) : FS :=
  if dirListed fs.dirs p then fs else ⟨p :: fs.dirs, fs.files⟩

/-- `open(p, "wb")` followed by a write: succeeds when the parent directory
exists and `p` is not itself a directory, replacing any previous file at `p`;
`none` models the raised `OSError`. -/
def FS.write (fs : FS) (p : String) (bytes : List Nat) : Option FS :=
  if dirListed fs.dirs (dirname p) && !dirListed fs.dirs p then
    some ⟨fs.dirs, (p, bytes) :: fs.files.filter (fun q => q.1 != p)⟩
  else none

/-- `shutil.rmtree(dir)`: remove the directory and everything beneath it. -/
def FS.rmtree (fs : FS) (dir : String) : FS :=
  ⟨fs.dirs.filter (fun d => !underDir dir d),
   fs.files.filter (fun q => !underDir dir q.1)⟩

/-- The OpenAI client as constructed at src/app.py:85: an API key and an
optional base-URL override. -/
structure OpenAIClient where
  apiKey : Json
  baseUrl : Option Json


/-- The MarkItDown engine: plain, or bound to an LLM client and model. -/
inductive MarkItDown where
  | plain
  | withLLM (client : OpenAIClient) (model : Json)


/-- Engine-mode selection, src/app.py:75-89: LLM-augmented when `llm_config`
is truthy and contains both `openaiApiKey` and `llmModel` (short-circuit, in
that order), with `base_url` added when `openaiBaseUrl` is present; plain
otherwise. Errors model Python exceptions raised by `in` or subscripting. -/
def buildEngine (llm_config : Json) : Except String MarkItDown :=
  if llm_config.truthy then
    match pyContains "openaiApiKey" llm_config with
    | .error e => .error e
    | .ok c1 =>
      if c1 then
        match pyContains "llmModel" llm_config with
        | .error e => .error e
        | .ok c2 =>
          if c2 then
            match pySubscript llm_config "openaiApiKey" with
            | .error e => .error e
            | .ok apiKey =>
              match pySubscript llm_config "llmModel" with
              | .error e => .error e
              | .ok model =>
                match pyContains "openaiBaseUrl" llm_config with
                | .error e => .error e
                | .ok hasBase =>
                  if hasBase then
                    match pySubscript llm_config "openaiBaseUrl" with
                    | .error e => .error e
                    | .ok base => .ok (MarkItDown.withLLM ⟨apiKey, some base⟩ model)
                  else .ok (MarkItDown.withLLM ⟨apiKey, none⟩ model)
          else .ok MarkItDown.plain
      else .ok MarkItDown.plain
  else .ok MarkItDown.plain

/-- The external collaborators of the handler: the configured temp base path,
the random UUID drawn for this request, `base64.b64decode`, and
`md.convert(path).text_content` as a function of the engine, the written
path and the written bytes (errors carry the exception's message). -/
structure Env where
  tmpdir : String
  uuid : String
  b64decode : String → Except String (List Nat)
  convert : MarkItDown → String → List Nat → Except String String

/-- An HTTP response: status code and JSON body. -/
structure HttpResponse where
  status : Nat
  body : Json


/-- `jsonify({"error": msg})`. -/
def errObj (msg : String) : Json :=
  Json.obj [("error", Json.str msg)]

/-- Mutable state threaded through the per-file loop: the filesystem and the
ghost trace of paths passed to the conversion engine. -/
structure St where
  fs : FS
  calls : List String


/-- Outcome of processing one `data` entry: a result object to append, an
early `return` of a response, or a raised Python exception. -/
inductive StepResult where
  | success (result : Json) (st : St)
  | abort (resp : HttpResponse) (st : St)
  | exc (msg : String) (st : St)

/-- The loop state a step result carries, whatever its kind. -/
def StepResult.st : StepResult → St
  | .success _ st => st
  | .abort _ st => st
  | .exc _ st => st


/-- The body of the per-file loop, src/app.py:94-128: extract `fileName` and
`fileContent` (raising on non-dict entries), reject missing/empty fields,
base64-decode (the inner try catches any decode exception), write the decoded
bytes to `os.path.join(working_dir, file_name)`, and convert, recording the
conversion attempt. -/
def stepItem (env : Env) (md : MarkItDown) (wd : String) (item : Json)
    (st : St) : StepResult :=
  match pyGetD item "fileName" Json.null with
  | .error e => .exc e st
  | .ok fileName =>
  match pyGetD item "fileContent" Json.null with
  | .error e => .exc e st
  | .ok fileContent =>
  if !fileName.truthy || !fileContent.truthy then
    .abort ⟨500, errObj "Missing fileName or fileContent"⟩ st
  else
    match (match fileContent with
           | Json.str s => env.b64decode s
           | v => Except.error ("argument should be a bytes-like object or ASCII string, not \x27" ++ pyTypeName v ++ "\x27")) with
    | .error e =>
        .abort ⟨500, errObj ("Failed to decode base64 for " ++ pyStr fileName ++ ": " ++ e)⟩ st
    | .ok bytes =>
        match fileName with
        | Json.str name =>
            let path := pyJoin wd name
            match st.fs.write path bytes with
            | none => .exc ("[Errno 2] No such file or directory: \x27" ++ path ++ "\x27") st
            | some fs2 =>
                let st2 : St := ⟨fs2, st.calls ++ [path]⟩
                match env.convert md path bytes with
                | .error e =>
                    .abort ⟨500, errObj ("Conversion failed for file: " ++ name ++ ". Error: " ++ e)⟩ st2
                | .ok text =>
                    .success (Json.obj [("fileName", Json.str name),
                                        ("conversionResult", Json.str text)]) st2
        | v => .exc ("join() argument must be str, bytes, or os.PathLike object, not \x27" ++ pyTypeName v ++ "\x27") st

/-- The per-file loop: process the entries in order, accumulating result
objects (kept reversed); the first abort or exception stops the loop, and an
exhausted list yields the 200 response with the results in input order. -/
def processItems (env : Env) (md : MarkItDown) (wd : String) :
    List Json → List Json → St → Except String HttpResponse × St
  | [], acc, st => (.ok ⟨200, Json.arr acc.reverse⟩, st)
  | item :: rest, acc, st =>
      match stepItem env md wd item st with
      | .success r st2 => processItems env md wd rest (r :: acc) st2
      | .abort resp st2 => (.ok resp, st2)
      | .exc e st2 => (.error e, st2)

/-- What the `try` block of the handler produces: a response or an uncaught
exception, the final loop state, and (ghosts) whether `working_dir` was
assigned and which engine was constructed. -/
structure TryOut where
  result : Except String HttpResponse
  st : St
  workingDir : Option String
  engine : Option MarkItDown


/-- The `try` block of `convert_files`, src/app.py:54-130: the None-payload
check, extraction of `llmConfig` and `data` (each raising on a non-dict
payload), the `data` validation, working-directory creation, engine
construction and the per-file loop. -/
def tryBody (env : Env) (body : Option Json) (fs0 : FS) : TryOut :=
  match body with
  | none => ⟨.ok ⟨500, errObj "No JSON payload provided"⟩, ⟨fs0, []⟩, none, none⟩
  | some payload =>
    match pyGetD payload "llmConfig" Json.null with
    | .error e => ⟨.error e, ⟨fs0, []⟩, none, none⟩
    | .ok llm_config =>
    match pyGetD payload "data" (Json.arr []) with
    | .error e => ⟨.error e, ⟨fs0, []⟩, none, none⟩
    | .ok data =>
    match data with
    | Json.arr items =>
        if items.isEmpty then
          ⟨.ok ⟨500, errObj "No valid \x27data\x27 array provided"⟩, ⟨fs0, []⟩, none, none⟩
        else
          let wd := pyJoin env.tmpdir env.uuid
          let fs1 := fs0.makedirs wd
          match buildEngine llm_config with
          | .error e => ⟨.error e, ⟨fs1, []⟩, some wd, none⟩
          | .ok md =>
              let r := processItems env md wd items [] ⟨fs1, []⟩
              ⟨r.1, r.2, some wd, some md⟩
    | _ => ⟨.ok ⟨500, errObj "No valid \x27data\x27 array provided"⟩, ⟨fs0, []⟩, none, none⟩

/-- The observable outcome of one `POST /convert` request: the response, the
final filesystem, and the ghost record of the working directory, the engine
and the conversion attempts. -/
structure Outcome where
  response : HttpResponse
  fs : FS
  workingDir : Option String
  engine : Option MarkItDown
  calls : List String


/-- The whole handler `convert_files`, src/app.py:34-140: run the try block,
turn an uncaught exception into a 500 `{"error": str(e)}` response, then run
the `finally` cleanup: when `working_dir` was assigned and exists, remove its
tree. `rmtreeOk` is whether the removal (whose errors `ignore_errors=True`
swallows) actually succeeds; it cannot influence the response. -/
def convert_files (env : Env) (rmtreeOk : Bool) (body : Option Json)
    (fs0 : FS) : Outcome :=
  let t := tryBody env body fs0
  let resp : HttpResponse :=
    match t.result with
    | .ok r => r
    | .error e => ⟨500, errObj e⟩
  let fsFinal : FS :=
    match t.workingDir with
    | some wd => if t.st.fs.pathExists wd && rmtreeOk then t.st.fs.rmtree wd else t.st.fs
    | none => t.st.fs
  ⟨resp, fsFinal, t.workingDir, t.engine, t.st.calls⟩

/-- The `GET /` route, src/app.py:30-32: always the 200 "ok" response,
whatever the environment and filesystem. -/
def root (_env : Env) (_fs : FS) : HttpResponse :=
  ⟨200, Json.str "ok"⟩

/-- Whether a JSON value is an array (Python `isinstance(data, list)`). -/
def Json.isArr : Json → Bool
  | .arr _ => true
  | _ => false

/-- Whether a JSON value is an object (a Python dict). -/
def Json.isObj : Json → Bool
  | .obj _ => true
  | _ => false

/-- One successfully processed file of a request: its name, its base64
content, the decoded bytes and the converted text. -/
structure Entry where
  name : String
  content : String
  bytes : List Nat
  text : String

/-- The FileEntry object of the request carrying this entry's fields. -/
def Entry.toJson (e : Entry) : Json :=
  Json.obj [("fileName", Json.str e.name), ("fileContent", Json.str e.content)]

/-- The ConversionResult object the handler appends for this entry. -/
def Entry.resultJson (e : Entry) : Json :=
  Json.obj [("fileName", Json.str e.name), ("conversionResult", Json.str e.text)]

/-- Every step of processing entry `e` succeeds: both fields nonempty, base64
decoding yields `e.bytes`, the write into the working directory succeeds (its
parent is among the loop-invariant directory list `wdirs` and its path is not
itself a directory), and conversion yields `e.text`. -/
def entryGood (env : Env) (md : MarkItDown) (wd : String) (wdirs : List String)
    (e : Entry) : Prop :=
  e.name ≠ "" ∧ e.content ≠ "" ∧
  env.b64decode e.content = Except.ok e.bytes ∧
  dirListed wdirs (dirname (pyJoin wd e.name)) = true ∧
  dirListed wdirs (pyJoin wd e.name) = false ∧
  env.convert md (pyJoin wd e.name) e.bytes = Except.ok e.text

/-- Processing `item` fails in one of the per-file ways the handler checks:
a missing or empty `fileName`/`fileContent`, a base64 decode failure, or a
conversion-engine failure (after a successful write). -/
def entryFails (env : Env) (md : MarkItDown) (wd : String) (wdirs : List String)
    (item : Json) : Prop :=
  ∃ kvs, item = Json.obj kvs ∧
    (let fn := (kvs.lookup "fileName").getD Json.null
     let fc := (kvs.lookup "fileContent").getD Json.null
     (fn.truthy = false ∨ fc.truthy = false)
     ∨ (∃ s e, fc = Json.str s ∧ fn.truthy = true ∧ s ≠ "" ∧
         env.b64decode s = Except.error e)
     ∨ (∃ name s bytes e, fn = Json.str name ∧ fc = Json.str s ∧
         name ≠ "" ∧ s ≠ "" ∧
         env.b64decode s = Except.ok bytes ∧
         dirListed wdirs (dirname (pyJoin wd name)) = true ∧
         dirListed wdirs (pyJoin wd name) = false ∧
         env.convert md (pyJoin wd name) bytes = Except.error e))

/-- The engine mode the spec prescribes, written from the spec's words
(design note: `LlmMode = Disabled | Enabled{apiKey, model, baseUrlOverride}`):
LLM-augmented exactly when `llmConfig` is an object with both `openaiApiKey`
and `llmModel` keys, the client carrying that key, the model name, and the
base-URL override exactly when `openaiBaseUrl` is provided. -/
def llmModeSpec (lc : Json) : MarkItDown :=
  match lc with
  | Json.obj m =>
      if (m.lookup "openaiApiKey").isSome && (m.lookup "llmModel").isSome then
        MarkItDown.withLLM
          ⟨(m.lookup "openaiApiKey").getD Json.null,
           if (m.lookup "openaiBaseUrl").isSome then
             some ((m.lookup "openaiBaseUrl").getD Json.null)
           else none⟩
          ((m.lookup "llmModel").getD Json.null)
      else MarkItDown.plain
  | _ => MarkItDown.plain

/-- A concrete environment for evaluating the theorems on closed inputs:
base64 decoding knows the one string "aGVsbG8=", and conversion fails exactly
on the path of `bad.bin`. -/
def envW : Env where
  tmpdir := "/tmp/"
  uuid := "wit-uuid"
  b64decode := fun s =>
    if s = "aGVsbG8=" then Except.ok [104, 101, 108, 108, 111]
    else Except.error "Invalid base64-encoded string"
  convert := fun _ p _ =>
    if p = "/tmp/wit-uuid/bad.bin" then Except.error "UnsupportedFormatException"
    else Except.ok "hello"

/-- A concrete entry that `envW` processes successfully. -/
def entryW : Entry :=
  ⟨"a.txt", "aGVsbG8=", [104, 101, 108, 108, 111], "hello"⟩

/-- A concrete llmConfig carrying both required keys and a base URL. -/
def llmCfgW : Json :=
  Json.obj [("openaiApiKey", Json.str "sk-test"),
            ("llmModel", Json.str "gpt-4o"),
            ("openaiBaseUrl", Json.str "http://localhost:8080")]

/-! Basic lemmas about the filesystem model and path helpers. -/

theorem dirListed_cons_self (ds : List String) (p : String) :
    dirListed (p :: ds) p = true := by
  simp [dirListed]

theorem FS.makedirs_listed (fs : FS) (p : String) :
    dirListed (fs.makedirs p).dirs p = true := by
  unfold FS.makedirs
  split
  · assumption
  · exact dirListed_cons_self fs.dirs p

theorem FS.write_dirs {fs : FS} {p : String} {bytes : List Nat} {fs2 : FS}
    (h : fs.write p bytes = some fs2) : fs2.dirs = fs.dirs := by
  unfold FS.write at h
  split at h
  · cases h; rfl
  · cases h

theorem underDir_self (d : String) : underDir d d = true := by
  simp [underDir]

theorem pyJoin_absolute {a b : String} (h : strStartsWith b "/" = true) :
    pyJoin a b = b := by
  unfold pyJoin
  rw [if_pos h]

theorem rmtree_pathExists_false (fs : FS) (wd p : String)
    (h : underDir wd p = true) : (fs.rmtree wd).pathExists p = false := by
  unfold FS.rmtree FS.pathExists dirListed
  rw [Bool.or_eq_false_iff]
  constructor
  · rw [List.any_eq_false]
    intro d hd
    rw [List.mem_filter] at hd
    simp only [beq_iff_eq]
    intro hdp
    rw [hdp, h] at hd
    simp at hd
  · rw [List.any_eq_false]
    intro q hq
    rw [List.mem_filter] at hq
    simp only [beq_iff_eq]
    intro hqp
    rw [hqp, h] at hq
    simp at hq

theorem lookup_isSome_of_any {kvs : List (String × Json)} {k : String} :
    kvs.any (fun p => p.1 == k) = (kvs.lookup k).isSome := by
  induction kvs with
  | nil => rfl
  | cons a as ih =>
      by_cases hk : a.1 = k
      · simp [List.lookup, hk]
      · have h1 : (a.1 == k) = false := by simp [hk]
        have h2 : (k == a.1) = false := by simp [Ne.symm hk]
        simp [List.lookup, h1, h2, ih]

/-! Invariance of the directory list through the per-file loop. -/

theorem stepItem_dirs (env : Env) (md : MarkItDown) (wd : String) (item : Json)
    (st : St) : ((stepItem env md wd item st).st).fs.dirs = st.fs.dirs := by
  unfold stepItem
  dsimp only
  repeat' split
  all_goals simp only [StepResult.st]
  all_goals first
    | rfl
    | exact FS.write_dirs (by assumption)

theorem processItems_dirs (env : Env) (md : MarkItDown) (wd : String)
    (items : List Json) :
    ∀ (acc : List Json) (st : St),
      ((processItems env md wd items acc st).2).fs.dirs = st.fs.dirs := by
  induction items with
  | nil => intro acc st; rfl
  | cons item rest ih =>
      intro acc st
      have hs := stepItem_dirs env md wd item st
      unfold processItems
      cases h : stepItem env md wd item st with
      | success r st2 =>
          rw [h] at hs
          simp only [StepResult.st] at hs
          rw [ih (r :: acc) st2, hs]
      | abort resp st2 =>
          rw [h] at hs
          simpa [StepResult.st] using hs
      | exc e st2 =>
          rw [h] at hs
          simpa [StepResult.st] using hs

/-! Behaviour of one loop step on well-formed and on failing entries. -/

theorem stepItem_good_eq (env : Env) (md : MarkItDown) (wd : String) (e : Entry)
    (st : St) (h : entryGood env md wd st.fs.dirs e) :
    stepItem env md wd e.toJson st = .success e.resultJson
      ⟨⟨st.fs.dirs,
        (pyJoin wd e.name, e.bytes) ::
          st.fs.files.filter (fun q => q.1 != pyJoin wd e.name)⟩,
        st.calls ++ [pyJoin wd e.name]⟩ := by
  obtain ⟨hn, hc, hdec, hdir, hnd, hconv⟩ := h
  have hn' : (e.name != "") = true := by simp [hn]
  have hc' : (e.content != "") = true := by simp [hc]
  unfold stepItem Entry.toJson Entry.resultJson
  simp [pyGetD, List.lookup, Json.truthy, hn', hc', hdec, FS.write, hdir, hnd,
    hconv]

theorem stepItem_good (env : Env) (md : MarkItDown) (wd : String) (e : Entry)
    (st : St) (h : entryGood env md wd st.fs.dirs e) :
    ∃ st2, stepItem env md wd e.toJson st = .success e.resultJson st2
      ∧ st2.fs.dirs = st.fs.dirs :=
  ⟨_, stepItem_good_eq env md wd e st h, rfl⟩

theorem processItems_good_prefix (env : Env) (md : MarkItDown) (wd : String)
    (entries : List Entry) :
    ∀ (rest : List Json) (acc : List Json) (st : St),
      (∀ e ∈ entries, entryGood env md wd st.fs.dirs e) →
      ∃ st2, processItems env md wd (entries.map Entry.toJson ++ rest) acc st
          = processItems env md wd rest
              ((entries.map Entry.resultJson).reverse ++ acc) st2
        ∧ st2.fs.dirs = st.fs.dirs := by
  induction entries with
  | nil => intro rest acc st _; exact ⟨st, by simp, rfl⟩
  | cons e es ih =>
      intro rest acc st hall
      obtain ⟨st2, hstep, hd⟩ := stepItem_good env md wd e st (hall e (by simp))
      have hes : ∀ x ∈ es, entryGood env md wd st2.fs.dirs x := by
        intro x hx
        rw [hd]
        exact hall x (by simp [hx])
      obtain ⟨st3, hrun, hd3⟩ := ih rest (e.resultJson :: acc) st2 hes
      refine ⟨st3, ?_, by rw [hd3, hd]⟩
      calc processItems env md wd ((e :: es).map Entry.toJson ++ rest) acc st
          = processItems env md wd (es.map Entry.toJson ++ rest)
              (e.resultJson :: acc) st2 := by
            simp only [List.map_cons, List.cons_append, processItems, hstep]
            rfl
        _ = processItems env md wd rest
              ((es.map Entry.resultJson).reverse ++ (e.resultJson :: acc)) st3 := hrun
        _ = processItems env md wd rest
              (((e :: es).map Entry.resultJson).reverse ++ acc) st3 := by
            simp

theorem processItems_good (env : Env) (md : MarkItDown) (wd : String)
    (entries : List Entry) (acc : List Json) (st : St)
    (hall : ∀ e ∈ entries, entryGood env md wd st.fs.dirs e) :
    ∃ st2, processItems env md wd (entries.map Entry.toJson) acc st
        = (Except.ok ⟨200, Json.arr (acc.reverse ++ entries.map Entry.resultJson)⟩, st2)
      ∧ st2.fs.dirs = st.fs.dirs := by
  obtain ⟨st2, hrun, hd⟩ :=
    processItems_good_prefix env md wd entries [] acc st hall
  refine ⟨st2, ?_, hd⟩
  rw [List.append_nil] at hrun
  rw [hrun]
  simp [processItems]

/-! Reduction of the try block on a request that reaches the per-file loop. -/

theorem tryBody_run (env : Env) (fs0 : FS) (pl : List (String × Json))
    (items : List Json) (md : MarkItDown)
    (hdata : (pl.lookup "data").getD (Json.arr []) = Json.arr items)
    (hne : items ≠ [])
    (hmd : buildEngine ((pl.lookup "llmConfig").getD Json.null) = Except.ok md) :
    tryBody env (some (Json.obj pl)) fs0
      = ⟨(processItems env md (pyJoin env.tmpdir env.uuid) items []
            ⟨fs0.makedirs (pyJoin env.tmpdir env.uuid), []⟩).1,
         (processItems env md (pyJoin env.tmpdir env.uuid) items []
            ⟨fs0.makedirs (pyJoin env.tmpdir env.uuid), []⟩).2,
         some (pyJoin env.tmpdir env.uuid), some md⟩ := by
  cases items with
  | nil => exact absurd rfl hne
  | cons a as =>
      unfold tryBody
      simp only [pyGetD, hdata, hmd, List.isEmpty_cons]
      rfl

theorem stepItem_missing (env : Env) (md : MarkItDown) (wd : String)
    (kvs : List (String × Json)) (st : St)
    (h : ((kvs.lookup "fileName").getD Json.null).truthy = false
       ∨ ((kvs.lookup "fileContent").getD Json.null).truthy = false) :
    stepItem env md wd (Json.obj kvs) st
      = .abort ⟨500, errObj "Missing fileName or fileContent"⟩ st := by
  unfold stepItem
  simp only [pyGetD]
  rcases h with h | h <;> simp [h]

theorem stepItem_decode_fail (env : Env) (md : MarkItDown) (wd : String)
    (kvs : List (String × Json)) (st : St) (s e : String)
    (hfc : (kvs.lookup "fileContent").getD Json.null = Json.str s)
    (hfn : ((kvs.lookup "fileName").getD Json.null).truthy = true)
    (hs : s ≠ "")
    (hdec : env.b64decode s = Except.error e) :
    stepItem env md wd (Json.obj kvs) st
      = .abort ⟨500, errObj ("Failed to decode base64 for "
          ++ pyStr ((kvs.lookup "fileName").getD Json.null) ++ ": " ++ e)⟩ st := by
  unfold stepItem
  simp only [pyGetD]
  rw [hfc]
  have hst : (Json.str s).truthy = true := by simp [Json.truthy, hs]
  simp [hfn, hst, hdec]

theorem stepItem_convert_fail (env : Env) (md : MarkItDown) (wd : String)
    (kvs : List (String × Json)) (st : St) (name s : String)
    (bytes : List Nat) (e : String)
    (hfn : (kvs.lookup "fileName").getD Json.null = Json.str name)
    (hfc : (kvs.lookup "fileContent").getD Json.null = Json.str s)
    (hname : name ≠ "") (hs : s ≠ "")
    (hdec : env.b64decode s = Except.ok bytes)
    (hdir : dirListed st.fs.dirs (dirname (pyJoin wd name)) = true)
    (hnd : dirListed st.fs.dirs (pyJoin wd name) = false)
    (hconv : env.convert md (pyJoin wd name) bytes = Except.error e) :
    ∃ st2, stepItem env md wd (Json.obj kvs) st
      = .abort ⟨500, errObj ("Conversion failed for file: " ++ name
          ++ ". Error: " ++ e)⟩ st2 := by
  refine ⟨⟨⟨st.fs.dirs,
      (pyJoin wd name, bytes) ::
        st.fs.files.filter (fun q => q.1 != pyJoin wd name)⟩,
      st.calls ++ [pyJoin wd name]⟩, ?_⟩
  unfold stepItem
  simp only [pyGetD]
  rw [hfn, hfc]
  simp [Json.truthy, hname, hs, hdec, FS.write, hdir, hnd, hconv]

theorem stepItem_nonobj (env : Env) (md : MarkItDown) (wd : String)
    (v : Json) (st : St) (hv : v.isObj = false) :
    stepItem env md wd v st
      = .exc ("\x27" ++ pyTypeName v ++ "\x27 object has no attribute \x27get\x27") st := by
  cases v with
  | obj kvs => simp [Json.isObj] at hv
  | null => rfl
  | bool b => rfl
  | num n => rfl
  | str s => rfl
  | arr xs => rfl

theorem stepItem_fails (env : Env) (md : MarkItDown) (wd : String)
    (item : Json) (st : St)
    (h : entryFails env md wd st.fs.dirs item) :
    ∃ msg st2, stepItem env md wd item st = .abort ⟨500, errObj msg⟩ st2 := by
  obtain ⟨kvs, rfl, hcase⟩ := h
  rcases hcase with h1 | h2 | h3
  · exact ⟨_, st, stepItem_missing env md wd kvs st h1⟩
  · obtain ⟨s, e, hfc, hfn, hs, hdec⟩ := h2
    exact ⟨_, st, stepItem_decode_fail env md wd kvs st s e hfc hfn hs hdec⟩
  · obtain ⟨name, s, bytes, e, hfn, hfc, hname, hs, hdec, hdir, hnd, hconv⟩ := h3
    obtain ⟨st2, hstep⟩ := stepItem_convert_fail env md wd kvs st name s bytes e
      hfn hfc hname hs hdec hdir hnd hconv
    exact ⟨_, st2, hstep⟩

theorem processItems_abort (env : Env) (md : MarkItDown) (wd : String)
    (item : Json) (rest acc : List Json) (st : St) {resp : HttpResponse}
    {st2 : St} (h : stepItem env md wd item st = .abort resp st2) :
    processItems env md wd (item :: rest) acc st = (.ok resp, st2) := by
  unfold processItems
  rw [h]

theorem processItems_exc (env : Env) (md : MarkItDown) (wd : String)
    (item : Json) (rest acc : List Json) (st : St) {msg : String}
    {st2 : St} (h : stepItem env md wd item st = .exc msg st2) :
    processItems env md wd (item :: rest) acc st = (.error msg, st2) := by
  unfold processItems
  rw [h]

/-! Projections of the handler outcome, and the working-directory invariant. -/

theorem convert_files_response (env : Env) (rmtreeOk : Bool)
    (body : Option Json) (fs0 : FS) :
    (convert_files env rmtreeOk body fs0).response
      = (match (tryBody env body fs0).result with
         | .ok r => r
         | .error e => ⟨500, errObj e⟩) := rfl

theorem convert_files_workingDir (env : Env) (rmtreeOk : Bool)
    (body : Option Json) (fs0 : FS) :
    (convert_files env rmtreeOk body fs0).workingDir
      = (tryBody env body fs0).workingDir := rfl

theorem convert_files_engine (env : Env) (rmtreeOk : Bool)
    (body : Option Json) (fs0 : FS) :
    (convert_files env rmtreeOk body fs0).engine
      = (tryBody env body fs0).engine := rfl

theorem convert_files_calls (env : Env) (rmtreeOk : Bool)
    (body : Option Json) (fs0 : FS) :
    (convert_files env rmtreeOk body fs0).calls
      = (tryBody env body fs0).st.calls := rfl

theorem convert_files_fs (env : Env) (rmtreeOk : Bool)
    (body : Option Json) (fs0 : FS) :
    (convert_files env rmtreeOk body fs0).fs
      = (match (tryBody env body fs0).workingDir with
         | some wd =>
             if (tryBody env body fs0).st.fs.pathExists wd && rmtreeOk then
               (tryBody env body fs0).st.fs.rmtree wd
             else (tryBody env body fs0).st.fs
         | none => (tryBody env body fs0).st.fs) := rfl

theorem tryBody_wd_pathExists (env : Env) (body : Option Json) (fs0 : FS)
    (wd : String) (h : (tryBody env body fs0).workingDir = some wd) :
    (tryBody env body fs0).st.fs.pathExists wd = true := by
  revert h
  unfold tryBody
  dsimp only
  repeat' split
  all_goals intro h
  all_goals (simp only [Option.some.injEq] at h; try cases h)
  all_goals simp [FS.pathExists, processItems_dirs, FS.makedirs_listed]

theorem buildEngine_shape (lc : Json)
    (h : lc = Json.null ∨ ∃ m, lc = Json.obj m) :
    buildEngine lc = Except.ok (llmModeSpec lc) := by
  rcases h with rfl | ⟨m, rfl⟩
  · rfl
  · cases m with
    | nil => rfl
    | cons a as =>
        cases ho1 : List.lookup "openaiApiKey" (a :: as) with
        | none =>
            simp only [buildEngine, llmModeSpec, pyContains, pySubscript,
              Json.truthy, lookup_isSome_of_any, ho1]
            rfl
        | some a1 =>
            cases ho2 : List.lookup "llmModel" (a :: as) with
            | none =>
                simp only [buildEngine, llmModeSpec, pyContains, pySubscript,
                  Json.truthy, lookup_isSome_of_any, ho1, ho2]
                rfl
            | some a2 =>
                cases ho3 : List.lookup "openaiBaseUrl" (a :: as) with
                | none =>
                    simp only [buildEngine, llmModeSpec, pyContains, pySubscript,
                      Json.truthy, lookup_isSome_of_any, ho1, ho2, ho3]
                    rfl
                | some a3 =>
                    simp only [buildEngine, llmModeSpec, pyContains, pySubscript,
                      Json.truthy, lookup_isSome_of_any, ho1, ho2, ho3]
                    rfl

/-! The claims. -/

/-- C1: for every POST /convert request whose body is a valid
ConversionRequest with N file entries that all process successfully (fields
present and nonempty, base64 decode succeeds, the write into the working
directory succeeds, the conversion engine succeeds), the handler returns
HTTP 200 with a JSON array of exactly N ConversionResult objects, in the same
order as the input data array, the i-th carrying the i-th input fileName and
the text content the conversion engine returned for that file (the `map` over
`entries` states exactly this pointwise correspondence). -/
theorem C1_success_batch (env : Env) (rmtreeOk : Bool) (fs0 : FS)
    (pl : List (String × Json)) (entries : List Entry) (md : MarkItDown)
    (hdata : (pl.lookup "data").getD (Json.arr [])
        = Json.arr (entries.map Entry.toJson))
    (hne : entries ≠ [])
    (hmd : buildEngine ((pl.lookup "llmConfig").getD Json.null) = Except.ok md)
    (hgood : ∀ e ∈ entries, entryGood env md (pyJoin env.tmpdir env.uuid)
        (fs0.makedirs (pyJoin env.tmpdir env.uuid)).dirs e) :
    (convert_files env rmtreeOk (some (Json.obj pl)) fs0).response
      = ⟨200, Json.arr (entries.map Entry.resultJson)⟩ := by
  have hne' : entries.map Entry.toJson ≠ [] := by
    cases entries with
    | nil => exact absurd rfl hne
    | cons a as => simp
  have htry := tryBody_run env fs0 pl (entries.map Entry.toJson) md hdata hne' hmd
  obtain ⟨st2, hrun, _⟩ := processItems_good env md (pyJoin env.tmpdir env.uuid)
    entries [] ⟨fs0.makedirs (pyJoin env.tmpdir env.uuid), []⟩ hgood
  rw [convert_files_response, htry]
  simp only [hrun]
  simp

/-- C1 witness: a one-entry request in the concrete environment converts to
the expected one-element 200 response. -/
theorem C1_success_batch_witness :
    (((([("data", Json.arr [entryW.toJson])] : List (String × Json)).lookup
          "data").getD (Json.arr []) = Json.arr ([entryW].map Entry.toJson))
      ∧ ([entryW] : List Entry) ≠ []
      ∧ buildEngine ((([("data", Json.arr [entryW.toJson])] :
            List (String × Json)).lookup "llmConfig").getD Json.null)
          = Except.ok MarkItDown.plain
      ∧ (∀ e ∈ [entryW], entryGood envW MarkItDown.plain
            (pyJoin envW.tmpdir envW.uuid)
            ((FS.makedirs ⟨[], []⟩ (pyJoin envW.tmpdir envW.uuid)).dirs) e))
    ∧ (convert_files envW true
          (some (Json.obj [("data", Json.arr [entryW.toJson])])) ⟨[], []⟩).response
        = ⟨200, Json.arr ([entryW].map Entry.resultJson)⟩ := by
  have hg : ∀ e ∈ [entryW], entryGood envW MarkItDown.plain
      (pyJoin envW.tmpdir envW.uuid)
      ((FS.makedirs ⟨[], []⟩ (pyJoin envW.tmpdir envW.uuid)).dirs) e := by
    intro e he
    simp only [List.mem_singleton] at he
    subst he
    exact ⟨by decide, by decide, rfl, by decide, by decide, rfl⟩
  exact ⟨⟨rfl, by simp, rfl, hg⟩,
    C1_success_batch envW true ⟨[], []⟩ _ [entryW] MarkItDown.plain rfl
      (by simp) rfl hg⟩

/-- C6: a request whose body is absent or not parsable as JSON (the parse
result is `none`) yields HTTP 500 with the error message "No JSON payload
provided", touching nothing. -/
theorem C6_no_payload (env : Env) (rmtreeOk : Bool) (fs0 : FS) :
    convert_files env rmtreeOk none fs0
      = ⟨⟨500, errObj "No JSON payload provided"⟩, fs0, none, none, []⟩ := rfl

/-- C8: every GET / request returns HTTP 200 with body "ok", regardless of
environment and filesystem state. -/
theorem C8_root_ok (env : Env) (fs : FS) : root env fs = ⟨200, Json.str "ok"⟩ :=
  rfl

/-- C3: a POST /convert request whose JSON object body lacks a `data` field,
or whose `data` is not a sequence, or is an empty sequence, yields HTTP 500
with body `{"error": "No valid 'data' array provided"}`; the filesystem is
untouched (no working directory created) and no conversion is attempted
(empty call trace). -/
theorem C3_invalid_data (env : Env) (rmtreeOk : Bool) (fs0 : FS)
    (pl : List (String × Json))
    (hbad : ((pl.lookup "data").getD (Json.arr [])).isArr = false
          ∨ (pl.lookup "data").getD (Json.arr []) = Json.arr []) :
    convert_files env rmtreeOk (some (Json.obj pl)) fs0
      = ⟨⟨500, errObj "No valid \x27data\x27 array provided"⟩, fs0, none, none, []⟩ := by
  have htry : tryBody env (some (Json.obj pl)) fs0
      = ⟨.ok ⟨500, errObj "No valid \x27data\x27 array provided"⟩,
         ⟨fs0, []⟩, none, none⟩ := by
    unfold tryBody
    simp only [pyGetD]
    cases hd : (pl.lookup "data").getD (Json.arr []) with
    | arr xs =>
        rcases hbad with h | h
        · rw [hd] at h
          simp [Json.isArr] at h
        · rw [hd] at h
          injection h with hxs
          subst hxs
          rfl
    | null => rfl
    | bool b => rfl
    | num n => rfl
    | str s => rfl
    | obj kvs => rfl
  unfold convert_files
  rw [htry]

/-- C3 witness: POST /convert with body `{"data": []}` gets exactly the 500
"No valid 'data' array provided" outcome, and the hypothesis holds for it. -/
theorem C3_invalid_data_witness :
    (((([("data", Json.arr [])] : List (String × Json)).lookup "data").getD
          (Json.arr [])).isArr = false
      ∨ (([("data", Json.arr [])] : List (String × Json)).lookup "data").getD
          (Json.arr []) = Json.arr [])
    ∧ convert_files envW true (some (Json.obj [("data", Json.arr [])])) ⟨[], []⟩
        = ⟨⟨500, errObj "No valid \x27data\x27 array provided"⟩,
           ⟨[], []⟩, none, none, []⟩ :=
  ⟨Or.inr rfl, C3_invalid_data envW true ⟨[], []⟩ _ (Or.inr rfl)⟩

/-- C9: when an element of a non-empty `data` array (after a prefix of
well-formed entries) is not a JSON object, the handler returns HTTP 500 whose
error field is the string representation of the raised AttributeError caught
by the generic catch-all, which differs from the per-field "Missing fileName
or fileContent" message. -/
theorem C9_nonobject_entry (env : Env) (rmtreeOk : Bool) (fs0 : FS)
    (pl : List (String × Json)) (entries : List Entry) (md : MarkItDown)
    (v : Json) (rest : List Json)
    (hdata : (pl.lookup "data").getD (Json.arr [])
        = Json.arr (entries.map Entry.toJson ++ v :: rest))
    (hmd : buildEngine ((pl.lookup "llmConfig").getD Json.null) = Except.ok md)
    (hgood : ∀ e ∈ entries, entryGood env md (pyJoin env.tmpdir env.uuid)
        (fs0.makedirs (pyJoin env.tmpdir env.uuid)).dirs e)
    (hv : v.isObj = false) :
    (convert_files env rmtreeOk (some (Json.obj pl)) fs0).response
      = ⟨500, errObj ("\x27" ++ pyTypeName v
          ++ "\x27 object has no attribute \x27get\x27")⟩
    ∧ ("\x27" ++ pyTypeName v ++ "\x27 object has no attribute \x27get\x27")
      ≠ "Missing fileName or fileContent" := by
  constructor
  · have hne' : entries.map Entry.toJson ++ v :: rest ≠ [] := by simp
    have htry := tryBody_run env fs0 pl _ md hdata hne' hmd
    obtain ⟨st2, hrun, hd⟩ := processItems_good_prefix env md
      (pyJoin env.tmpdir env.uuid) entries (v :: rest) []
      ⟨fs0.makedirs (pyJoin env.tmpdir env.uuid), []⟩ hgood
    have hstep := stepItem_nonobj env md (pyJoin env.tmpdir env.uuid) v st2 hv
    rw [convert_files_response, htry, hrun,
      processItems_exc env md (pyJoin env.tmpdir env.uuid) v rest _ st2 hstep]
  · cases v with
    | obj kvs => simp [Json.isObj] at hv
    | null => decide
    | bool b =>
        show ("\x27bool\x27 object has no attribute \x27get\x27" : String)
          ≠ "Missing fileName or fileContent"
        decide
    | num n =>
        show ("\x27int\x27 object has no attribute \x27get\x27" : String)
          ≠ "Missing fileName or fileContent"
        decide
    | str s =>
        show ("\x27str\x27 object has no attribute \x27get\x27" : String)
          ≠ "Missing fileName or fileContent"
        decide
    | arr xs =>
        show ("\x27list\x27 object has no attribute \x27get\x27" : String)
          ≠ "Missing fileName or fileContent"
        decide

/-- C9 witness: a data array whose single element is the string "oops" gets
the AttributeError message, not the missing-field message. -/
theorem C9_nonobject_entry_witness :
    ((([("data", Json.arr [Json.str "oops"])] : List (String × Json)).lookup
        "data").getD (Json.arr [])
      = Json.arr (([] : List Entry).map Entry.toJson ++ Json.str "oops" :: [])
      ∧ (Json.str "oops").isObj = false)
    ∧ (convert_files envW true
          (some (Json.obj [("data", Json.arr [Json.str "oops"])])) ⟨[], []⟩).response
        = ⟨500, errObj ("\x27" ++ pyTypeName (Json.str "oops")
            ++ "\x27 object has no attribute \x27get\x27")⟩
    ∧ ("\x27" ++ pyTypeName (Json.str "oops")
        ++ "\x27 object has no attribute \x27get\x27")
      ≠ "Missing fileName or fileContent" := by
  refine ⟨⟨rfl, rfl⟩, ?_, ?_⟩
  · exact (C9_nonobject_entry envW true ⟨[], []⟩
      [("data", Json.arr [Json.str "oops"])] [] MarkItDown.plain
      (Json.str "oops") [] rfl rfl (by intro e he; cases he) rfl).1
  · exact (C9_nonobject_entry envW true ⟨[], []⟩
      [("data", Json.arr [Json.str "oops"])] [] MarkItDown.plain
      (Json.str "oops") [] rfl rfl (by intro e he; cases he) rfl).2

/-- C2: when the entries before `bad` all process successfully and `bad`
fails in any of the per-file ways (missing/empty field, base64 decode
failure, or conversion failure), the handler immediately returns HTTP 500
whose body is a single error object — no conversion results are returned for
any file of the request, the already-converted prefix included, whatever
entries follow (`rest` is arbitrary). -/
theorem C2_first_error_aborts (env : Env) (rmtreeOk : Bool) (fs0 : FS)
    (pl : List (String × Json)) (entries : List Entry) (md : MarkItDown)
    (bad : Json) (rest : List Json)
    (hdata : (pl.lookup "data").getD (Json.arr [])
        = Json.arr (entries.map Entry.toJson ++ bad :: rest))
    (hmd : buildEngine ((pl.lookup "llmConfig").getD Json.null) = Except.ok md)
    (hgood : ∀ e ∈ entries, entryGood env md (pyJoin env.tmpdir env.uuid)
        (fs0.makedirs (pyJoin env.tmpdir env.uuid)).dirs e)
    (hbad : entryFails env md (pyJoin env.tmpdir env.uuid)
        (fs0.makedirs (pyJoin env.tmpdir env.uuid)).dirs bad) :
    ∃ msg, (convert_files env rmtreeOk (some (Json.obj pl)) fs0).response
      = ⟨500, errObj msg⟩ := by
  have hne' : entries.map Entry.toJson ++ bad :: rest ≠ [] := by simp
  have htry := tryBody_run env fs0 pl _ md hdata hne' hmd
  obtain ⟨st2, hrun, hd⟩ := processItems_good_prefix env md
    (pyJoin env.tmpdir env.uuid) entries (bad :: rest) []
    ⟨fs0.makedirs (pyJoin env.tmpdir env.uuid), []⟩ hgood
  obtain ⟨msg, st3, hstep⟩ := stepItem_fails env md (pyJoin env.tmpdir env.uuid)
    bad st2 (by rw [hd]; exact hbad)
  refine ⟨msg, ?_⟩
  rw [convert_files_response, htry, hrun,
    processItems_abort env md (pyJoin env.tmpdir env.uuid) bad rest _ st2 hstep]

/-- C2 witness: a successfully converting first entry followed by an entry
with no fileContent (and an arbitrary trailing entry) yields a single-error
500 response. -/
theorem C2_first_error_aborts_witness :
    ((([("data", Json.arr ([entryW.toJson]
          ++ Json.obj [("fileName", Json.str "b.txt")] :: [Json.num 7]))] :
          List (String × Json)).lookup "data").getD (Json.arr [])
        = Json.arr ([entryW].map Entry.toJson
            ++ Json.obj [("fileName", Json.str "b.txt")] :: [Json.num 7])
      ∧ entryFails envW MarkItDown.plain (pyJoin envW.tmpdir envW.uuid)
          ((FS.makedirs ⟨[], []⟩ (pyJoin envW.tmpdir envW.uuid)).dirs)
          (Json.obj [("fileName", Json.str "b.txt")]))
    ∧ ∃ msg, (convert_files envW true
        (some (Json.obj [("data", Json.arr ([entryW.toJson]
          ++ Json.obj [("fileName", Json.str "b.txt")] :: [Json.num 7]))]))
        ⟨[], []⟩).response = ⟨500, errObj msg⟩ := by
  have hg : ∀ e ∈ [entryW], entryGood envW MarkItDown.plain
      (pyJoin envW.tmpdir envW.uuid)
      ((FS.makedirs ⟨[], []⟩ (pyJoin envW.tmpdir envW.uuid)).dirs) e := by
    intro e he
    simp only [List.mem_singleton] at he
    subst he
    exact ⟨by decide, by decide, rfl, by decide, by decide, rfl⟩
  have hb : entryFails envW MarkItDown.plain (pyJoin envW.tmpdir envW.uuid)
      ((FS.makedirs ⟨[], []⟩ (pyJoin envW.tmpdir envW.uuid)).dirs)
      (Json.obj [("fileName", Json.str "b.txt")]) :=
    ⟨[("fileName", Json.str "b.txt")], rfl, Or.inl (Or.inr rfl)⟩
  exact ⟨⟨rfl, hb⟩,
    C2_first_error_aborts envW true ⟨[], []⟩ _ [entryW] MarkItDown.plain
      (Json.obj [("fileName", Json.str "b.txt")]) [Json.num 7] rfl rfl hg hb⟩

/-- C7: when the entries before it all process successfully and some entry's
fileContent is not valid base64 (the decoder raises with message `e`), the
handler returns HTTP 500 whose single error object names that file and the
decode error, and no conversion results are returned for any file of the
request. -/
theorem C7_bad_base64 (env : Env) (rmtreeOk : Bool) (fs0 : FS)
    (pl : List (String × Json)) (entries : List Entry) (md : MarkItDown)
    (name s e : String) (rest : List Json)
    (hdata : (pl.lookup "data").getD (Json.arr [])
        = Json.arr (entries.map Entry.toJson
            ++ Json.obj [("fileName", Json.str name),
                         ("fileContent", Json.str s)] :: rest))
    (hmd : buildEngine ((pl.lookup "llmConfig").getD Json.null) = Except.ok md)
    (hgood : ∀ x ∈ entries, entryGood env md (pyJoin env.tmpdir env.uuid)
        (fs0.makedirs (pyJoin env.tmpdir env.uuid)).dirs x)
    (hname : name ≠ "") (hs : s ≠ "")
    (hdec : env.b64decode s = Except.error e) :
    (convert_files env rmtreeOk (some (Json.obj pl)) fs0).response
      = ⟨500, errObj ("Failed to decode base64 for " ++ name ++ ": " ++ e)⟩ := by
  have hne' : entries.map Entry.toJson
      ++ Json.obj [("fileName", Json.str name), ("fileContent", Json.str s)]
        :: rest ≠ [] := by simp
  have htry := tryBody_run env fs0 pl _ md hdata hne' hmd
  obtain ⟨st2, hrun, hd⟩ := processItems_good_prefix env md
    (pyJoin env.tmpdir env.uuid) entries
    (Json.obj [("fileName", Json.str name), ("fileContent", Json.str s)] :: rest)
    [] ⟨fs0.makedirs (pyJoin env.tmpdir env.uuid), []⟩ hgood
  have hstep := stepItem_decode_fail env md (pyJoin env.tmpdir env.uuid)
    [("fileName", Json.str name), ("fileContent", Json.str s)] st2 s e
    (by simp [List.lookup]) (by simp [List.lookup, Json.truthy, hname]) hs hdec
  rw [convert_files_response, htry, hrun,
    processItems_abort env md (pyJoin env.tmpdir env.uuid) _ rest _ st2 hstep]
  rfl

/-- C7 witness: a request whose single entry carries content the decoder
rejects gets the 500 response naming the file and the decoder's message. -/
theorem C7_bad_base64_witness :
    ((([("data", Json.arr [Json.obj [("fileName", Json.str "c.bin"),
            ("fileContent", Json.str "###")]])] :
          List (String × Json)).lookup "data").getD (Json.arr [])
        = Json.arr (([] : List Entry).map Entry.toJson
            ++ Json.obj [("fileName", Json.str "c.bin"),
                         ("fileContent", Json.str "###")] :: [])
      ∧ envW.b64decode "###" = Except.error "Invalid base64-encoded string")
    ∧ (convert_files envW true
        (some (Json.obj [("data", Json.arr [Json.obj
          [("fileName", Json.str "c.bin"), ("fileContent", Json.str "###")]])]))
        ⟨[], []⟩).response
      = ⟨500, errObj ("Failed to decode base64 for c.bin: Invalid base64-encoded string")⟩ := by
  refine ⟨⟨rfl, rfl⟩, ?_⟩
  exact C7_bad_base64 envW true ⟨[], []⟩
    [("data", Json.arr [Json.obj [("fileName", Json.str "c.bin"),
        ("fileContent", Json.str "###")]])] [] MarkItDown.plain
    "c.bin" "###" "Invalid base64-encoded string" [] rfl rfl
    (by intro x hx; cases hx) (by decide) (by decide) rfl

/-- C5: for every request that reaches engine construction (valid non-empty
`data`), with `llmConfig` absent (null) or an object, the engine recorded is
exactly the one the spec's mode selection prescribes: LLM-augmented — client
built from the supplied key with the base-URL override exactly when provided,
bound to the supplied model — if and only if `llmConfig` has both
`openaiApiKey` and `llmModel` keys, and plain in every other case (absent,
empty, or missing either key), as `llmModeSpec` states. -/
theorem C5_llm_mode (env : Env) (rmtreeOk : Bool) (fs0 : FS)
    (pl : List (String × Json)) (items : List Json) (lc : Json)
    (hlc : (pl.lookup "llmConfig").getD Json.null = lc)
    (hshape : lc = Json.null ∨ ∃ m, lc = Json.obj m)
    (hdata : (pl.lookup "data").getD (Json.arr []) = Json.arr items)
    (hne : items ≠ []) :
    (convert_files env rmtreeOk (some (Json.obj pl)) fs0).engine
      = some (llmModeSpec lc) := by
  have hmd : buildEngine ((pl.lookup "llmConfig").getD Json.null)
      = Except.ok (llmModeSpec lc) := by
    rw [hlc]
    exact buildEngine_shape lc hshape
  have htry := tryBody_run env fs0 pl items (llmModeSpec lc) hdata hne hmd
  rw [convert_files_engine, htry]

/-- C5 witness: an llmConfig with both keys and a base URL yields the
LLM-augmented engine carrying exactly that key, base URL and model. -/
theorem C5_llm_mode_witness :
    ((([("llmConfig", llmCfgW), ("data", Json.arr [entryW.toJson])] :
          List (String × Json)).lookup "llmConfig").getD Json.null = llmCfgW)
    ∧ (convert_files envW true
        (some (Json.obj [("llmConfig", llmCfgW),
            ("data", Json.arr [entryW.toJson])])) ⟨[], []⟩).engine
      = some (llmModeSpec llmCfgW)
    ∧ llmModeSpec llmCfgW
      = MarkItDown.withLLM
          ⟨Json.str "sk-test", some (Json.str "http://localhost:8080")⟩
          (Json.str "gpt-4o") := by
  refine ⟨rfl, ?_, rfl⟩
  exact C5_llm_mode envW true ⟨[], []⟩
    [("llmConfig", llmCfgW), ("data", Json.arr [entryW.toJson])]
    [entryW.toJson] llmCfgW rfl (Or.inr ⟨_, rfl⟩) rfl (by simp)

/-- C4: for every request that caused a working directory to be created
(`workingDir = some wd`), when the removal succeeds no path at or beneath the
working directory survives on any exit path, and the success or failure of
the removal (whose errors `shutil.rmtree(…, ignore_errors=True)` swallows)
never changes the response returned to the caller. -/
theorem C4_cleanup (env : Env) (body : Option Json) (fs0 : FS) (wd : String)
    (hwd : (convert_files env true body fs0).workingDir = some wd) :
    (∀ p, underDir wd p = true →
        (convert_files env true body fs0).fs.pathExists p = false)
    ∧ (∀ r1 r2 : Bool, (convert_files env r1 body fs0).response
        = (convert_files env r2 body fs0).response) := by
  rw [convert_files_workingDir] at hwd
  constructor
  · intro p hp
    rw [convert_files_fs, hwd]
    dsimp only
    rw [tryBody_wd_pathExists env body fs0 wd hwd]
    exact rmtree_pathExists_false _ wd p hp
  · intro r1 r2
    rw [convert_files_response, convert_files_response]

/-- C4 witness: for a concrete successful request the working directory was
created, the file written beneath it is gone afterwards, and the response is
the same whether or not the removal succeeds. -/
theorem C4_cleanup_witness :
    ((convert_files envW true
        (some (Json.obj [("data", Json.arr [entryW.toJson])])) ⟨[], []⟩).workingDir
      = some "/tmp/wit-uuid"
      ∧ underDir "/tmp/wit-uuid" "/tmp/wit-uuid/a.txt" = true)
    ∧ (convert_files envW true
        (some (Json.obj [("data", Json.arr [entryW.toJson])])) ⟨[], []⟩).fs.pathExists
        "/tmp/wit-uuid/a.txt" = false
    ∧ (convert_files envW true
        (some (Json.obj [("data", Json.arr [entryW.toJson])])) ⟨[], []⟩).response
      = (convert_files envW false
        (some (Json.obj [("data", Json.arr [entryW.toJson])])) ⟨[], []⟩).response := by
  have hwd : (convert_files envW true
      (some (Json.obj [("data", Json.arr [entryW.toJson])])) ⟨[], []⟩).workingDir
      = some "/tmp/wit-uuid" := rfl
  refine ⟨⟨hwd, by decide⟩, ?_, ?_⟩
  · exact (C4_cleanup envW (some (Json.obj [("data", Json.arr [entryW.toJson])]))
      ⟨[], []⟩ "/tmp/wit-uuid" hwd).1 "/tmp/wit-uuid/a.txt" (by decide)
  · exact (C4_cleanup envW (some (Json.obj [("data", Json.arr [entryW.toJson])]))
      ⟨[], []⟩ "/tmp/wit-uuid" hwd).2 true false

/-- C10: for a file entry whose fileName is an absolute path, the path join
discards the working-directory prefix (`pyJoin wd name = name`), the decoded
bytes are written to that absolute path outside the working directory, and
the end-of-request cleanup (which removes only the working-directory tree,
here with full success: the working directory itself is gone) does not remove
that file — it persists on the filesystem after the request completes. -/
theorem C10_absolute_filename (env : Env) (fs0 : FS)
    (pl : List (String × Json)) (name s text : String) (bytes : List Nat)
    (md : MarkItDown)
    (hdata : (pl.lookup "data").getD (Json.arr [])
        = Json.arr [Json.obj [("fileName", Json.str name),
            ("fileContent", Json.str s)]])
    (hmd : buildEngine ((pl.lookup "llmConfig").getD Json.null) = Except.ok md)
    (habs : strStartsWith name "/" = true)
    (hs : s ≠ "")
    (hdec : env.b64decode s = Except.ok bytes)
    (hdir : dirListed (fs0.makedirs (pyJoin env.tmpdir env.uuid)).dirs
        (dirname name) = true)
    (hnd : dirListed (fs0.makedirs (pyJoin env.tmpdir env.uuid)).dirs
        name = false)
    (hconv : env.convert md name bytes = Except.ok text)
    (hout : underDir (pyJoin env.tmpdir env.uuid) name = false) :
    pyJoin (pyJoin env.tmpdir env.uuid) name = name
    ∧ (name, bytes) ∈ (convert_files env true (some (Json.obj pl)) fs0).fs.files
    ∧ (convert_files env true (some (Json.obj pl)) fs0).fs.pathExists
        (pyJoin env.tmpdir env.uuid) = false := by
  have hjoin : pyJoin (pyJoin env.tmpdir env.uuid) name = name :=
    pyJoin_absolute habs
  have hname : name ≠ "" := by
    intro h
    subst h
    exact absurd habs (by decide)
  have hgood : entryGood env md (pyJoin env.tmpdir env.uuid)
      (fs0.makedirs (pyJoin env.tmpdir env.uuid)).dirs ⟨name, s, bytes, text⟩ := by
    refine ⟨hname, hs, hdec, ?_, ?_, ?_⟩
    · rw [hjoin]; exact hdir
    · rw [hjoin]; exact hnd
    · rw [hjoin]; exact hconv
  have hstep := stepItem_good_eq env md (pyJoin env.tmpdir env.uuid)
    ⟨name, s, bytes, text⟩ ⟨fs0.makedirs (pyJoin env.tmpdir env.uuid), []⟩ hgood
  rw [hjoin] at hstep
  have hrun : processItems env md (pyJoin env.tmpdir env.uuid)
      [Entry.toJson ⟨name, s, bytes, text⟩] []
      ⟨fs0.makedirs (pyJoin env.tmpdir env.uuid), []⟩
      = (Except.ok ⟨200, Json.arr [Entry.resultJson ⟨name, s, bytes, text⟩]⟩,
         ⟨⟨(fs0.makedirs (pyJoin env.tmpdir env.uuid)).dirs,
           (name, bytes) :: (fs0.makedirs (pyJoin env.tmpdir env.uuid)).files.filter
             (fun q => q.1 != name)⟩, [name]⟩) := by
    simp only [processItems, hstep]
    rfl
  have htry := tryBody_run env fs0 pl [Entry.toJson ⟨name, s, bytes, text⟩] md
    hdata (by simp) hmd
  have hex : FS.pathExists
      ⟨(fs0.makedirs (pyJoin env.tmpdir env.uuid)).dirs,
       (name, bytes) :: (fs0.makedirs (pyJoin env.tmpdir env.uuid)).files.filter
         (fun q => q.1 != name)⟩ (pyJoin env.tmpdir env.uuid) = true := by
    simp [FS.pathExists, FS.makedirs_listed]
  have hfs : (convert_files env true (some (Json.obj pl)) fs0).fs
      = FS.rmtree
          ⟨(fs0.makedirs (pyJoin env.tmpdir env.uuid)).dirs,
           (name, bytes) :: (fs0.makedirs (pyJoin env.tmpdir env.uuid)).files.filter
             (fun q => q.1 != name)⟩ (pyJoin env.tmpdir env.uuid) := by
    rw [convert_files_fs, htry]
    dsimp only
    rw [hrun]
    dsimp only
    rw [hex]
    rfl
  refine ⟨hjoin, ?_, ?_⟩
  · rw [hfs]
    unfold FS.rmtree
    apply List.mem_filter.mpr
    refine ⟨List.mem_cons_self _ _, ?_⟩
    simp [hout]
  · rw [hfs]
    exact rmtree_pathExists_false _ _ _ (underDir_self _)

/-- C10 witness: a request naming "/etc/x" writes the decoded bytes to
/etc/x, outside the working directory; after cleanup the working directory is
gone but /etc/x persists. -/
theorem C10_absolute_filename_witness :
    (strStartsWith "/etc/x" "/" = true
      ∧ underDir (pyJoin envW.tmpdir envW.uuid) "/etc/x" = false
      ∧ envW.b64decode "aGVsbG8=" = Except.ok [104, 101, 108, 108, 111])
    ∧ pyJoin (pyJoin envW.tmpdir envW.uuid) "/etc/x" = "/etc/x"
    ∧ ("/etc/x", [104, 101, 108, 108, 111]) ∈
        (convert_files envW true (some (Json.obj [("data", Json.arr
          [Json.obj [("fileName", Json.str "/etc/x"),
                     ("fileContent", Json.str "aGVsbG8=")]])]))
          ⟨["/etc"], []⟩).fs.files
    ∧ (convert_files envW true (some (Json.obj [("data", Json.arr
          [Json.obj [("fileName", Json.str "/etc/x"),
                     ("fileContent", Json.str "aGVsbG8=")]])]))
          ⟨["/etc"], []⟩).fs.pathExists (pyJoin envW.tmpdir envW.uuid) = false := by
  have h := C10_absolute_filename envW ⟨["/etc"], []⟩
    [("data", Json.arr [Json.obj [("fileName", Json.str "/etc/x"),
        ("fileContent", Json.str "aGVsbG8=")]])]
    "/etc/x" "aGVsbG8=" "hello" [104, 101, 108, 108, 111] MarkItDown.plain
    rfl rfl (by decide) (by decide) rfl (by decide) (by decide) rfl (by decide)
  exact ⟨⟨by decide, by decide, rfl⟩, h.1, h.2.1, h.2.2⟩
